import Mathlib

/-!
Shallow embedding of src/src/render.rs from sokoban-rs: tile-atlas lookup,
coordinate mapping, shadow-mask computation, rendering-size and
presentation geometry, and full-size scene composition.

Machine arithmetic: Rust u32/i32 values are modelled as Nat/Int with
explicit wrap-around (mod 2^32) at each operation where the source
performs machine arithmetic, written through the helpers below.
-/

/-- The u32 modulus 2^32. -/
def U32M : Nat := 4294967296

/-- Rust cast of an i32 value to u32 (two's-complement reinterpretation). -/
def i32ToU32 (x : Int) : Nat := (x % (U32M : Int)).toNat

/-- Rust cast of a u32 value to i32 (two's-complement reinterpretation). -/
def u32ToI32 (n : Nat) : Int :=
  if n < 2147483648 then (n : Int) else (n : Int) - (U32M : Int)

/-- Wrapping u32 subtraction, as performed by `a - b` on u32 in release mode. -/
def u32sub (a b : Nat) : Nat := (((a : Int) - (b : Int)) % (U32M : Int)).toNat

/-- Wrap an integer to the i32 range, as i32 arithmetic does in release mode. -/
def wrap32 (x : Int) : Int :=
  (x + 2147483648) % (U32M : Int) - 2147483648

/-- Bitflag constant N_EDGE = 0x1 from the `bitflags!` block in render.rs. -/
def N_EDGE : Nat := 0x1

/-- Bitflag constant S_EDGE = 0x2. -/
def S_EDGE : Nat := 0x2

/-- Bitflag constant E_EDGE = 0x4. -/
def E_EDGE : Nat := 0x4

/-- Bitflag constant W_EDGE = 0x8. -/
def W_EDGE : Nat := 0x8

/-- Bitflag constant NE_CORNER = 0x10. -/
def NE_CORNER : Nat := 0x10

/-- Bitflag constant NW_CORNER = 0x20. -/
def NW_CORNER : Nat := 0x20

/-- Bitflag constant SE_CORNER = 0x40. -/
def SE_CORNER : Nat := 0x40

/-- Bitflag constant SW_CORNER = 0x80. -/
def SW_CORNER : Nat := 0x80

/-- A ShadowFlags value is a bitmask (the `bitflags!` struct over i32;
only the low 8 bits are ever used by this module). -/
abbrev ShadowFlags := Nat

/-- Rust `ShadowFlags::empty()`. -/
def ShadowFlags.empty : ShadowFlags := 0

/-- Rust `ShadowFlags::intersects`: the two masks share at least one set bit. -/
def ShadowFlags.intersects (a b : ShadowFlags) : Bool := a &&& b != 0

/-- Rust `ShadowFlags::contains`: every bit of `b` is set in `a`. -/
def ShadowFlags.contains (a b : ShadowFlags) : Bool := a &&& b == b

/-- A direction of movement, from super::game (declaration only; the four
variants are named in the spec). -/
inductive Direction where
  | Up
  | Down
  | Left
  | Right
deriving DecidableEq

/-- A grid position with row and column, from super::game (this module only
reads it). Coordinates are i32 values, modelled as Int. -/
structure Position where
  row : Int
  column : Int
deriving DecidableEq

/-- Modelled from the spec: `Position::neighboor` lives in src/game.rs which
is not part of the shown source. The spec says a Direction is used to compute
a neighboring Position, with Up/north toward smaller rows, Down/south toward
larger rows, Left/west toward smaller columns, Right/east toward larger
columns (matching north/south/west/east naming in get_shadow_flags). -/
def Position.neighboor (p : Position) (d : Direction) : Position :=
  match d with
  | Direction.Up => { row := p.row - 1, column := p.column }
  | Direction.Down => { row := p.row + 1, column := p.column }
  | Direction.Left => { row := p.row, column := p.column - 1 }
  | Direction.Right => { row := p.row, column := p.column + 1 }

/-- The Level collaborator from super::game, abstracted by its query
interface as used by render.rs: extents and the four cell predicates. -/
structure Level where
  extents : Int × Int
  is_wall : Position → Bool
  is_box : Position → Bool
  is_player : Position → Bool
  is_square : Position → Bool

/-- The Tile enum of render.rs. -/
inductive Tile where
  | Floor
  | Wall
  | Rock
  | Square
  | Player
  | Shadow (flags : ShadowFlags)
deriving DecidableEq

/-- Rust `Tile::width()`. -/
def Tile.width : Nat := 101

/-- Rust `Tile::height()`. -/
def Tile.height : Nat := 171

/-- Rust `Tile::effective_height()`. -/
def Tile.effective_height : Nat := 83

/-- Rust `Tile::offset()`. -/
def Tile.offset : Int := 40

/-- Rust `Tile::location`: position of the tile inside the tileset texture.
The Rust match tests a `Tile::Shadow` pattern against each single-flag
constant by equality, with a catch-all returning None. -/
def Tile.location : Tile → Option (Nat × Nat)
  | Tile.Floor => some (0, 0)
  | Tile.Wall => some (0, 2)
  | Tile.Rock => some (2, 0)
  | Tile.Square => some (1, 0)
  | Tile.Player => some (3, 0)
  | Tile.Shadow f =>
    if f = N_EDGE then some (4, 0)
    else if f = S_EDGE then some (5, 0)
    else if f = E_EDGE then some (0, 1)
    else if f = W_EDGE then some (1, 1)
    else if f = NE_CORNER then some (2, 1)
    else if f = NW_CORNER then some (3, 1)
    else if f = SE_CORNER then some (4, 1)
    else if f = SW_CORNER then some (5, 1)
    else none

/-- Rust `Tile::get_coordinates`: top-left pixel coordinates of the tile at a
grid position (i32 multiplication, wrapping in release mode). -/
def Tile.get_coordinates (pos : Position) : Int × Int :=
  (wrap32 ((Tile.width : Int) * pos.column),
   wrap32 ((Tile.effective_height : Int) * pos.row))

/-- Rust `get_shadow_flags`: the shadow flags for a position in a level,
translated statement by statement from render.rs lines 253-285. -/
def get_shadow_flags (level : Level) (pos : Position) : ShadowFlags :=
  let north := pos.neighboor Direction.Up
  let south := pos.neighboor Direction.Down
  let west := pos.neighboor Direction.Left
  let east := pos.neighboor Direction.Right
  let flags := ShadowFlags.empty
  let flags := if level.is_wall north then flags ||| N_EDGE else flags
  let flags := if level.is_wall south then flags ||| S_EDGE else flags
  let flags := if level.is_wall west then flags ||| W_EDGE else flags
  let flags := if level.is_wall east then flags ||| E_EDGE else flags
  let flags := if level.is_wall (north.neighboor Direction.Right) &&
      !(ShadowFlags.intersects flags (N_EDGE ||| E_EDGE)) then
    flags ||| NE_CORNER else flags
  let flags := if level.is_wall (north.neighboor Direction.Left) &&
      !(ShadowFlags.intersects flags (N_EDGE ||| W_EDGE)) then
    flags ||| NW_CORNER else flags
  let flags := if level.is_wall (south.neighboor Direction.Right) &&
      !(ShadowFlags.intersects flags (S_EDGE ||| E_EDGE)) then
    flags ||| SE_CORNER else flags
  let flags := if level.is_wall (south.neighboor Direction.Left) &&
      !(ShadowFlags.intersects flags (S_EDGE ||| W_EDGE)) then
    flags ||| SW_CORNER else flags
  flags

/-- The flag computation of `get_shadow_flags` as a function of the eight
wall queries it makes, structured identically (proof helper; see
`get_shadow_flags_eq_core`). -/
def shadow_core (n s w e ne nw se sw : Bool) : ShadowFlags :=
  let flags := ShadowFlags.empty
  let flags := if n then flags ||| N_EDGE else flags
  let flags := if s then flags ||| S_EDGE else flags
  let flags := if w then flags ||| W_EDGE else flags
  let flags := if e then flags ||| E_EDGE else flags
  let flags := if ne && !(ShadowFlags.intersects flags (N_EDGE ||| E_EDGE)) then
    flags ||| NE_CORNER else flags
  let flags := if nw && !(ShadowFlags.intersects flags (N_EDGE ||| W_EDGE)) then
    flags ||| NW_CORNER else flags
  let flags := if se && !(ShadowFlags.intersects flags (S_EDGE ||| E_EDGE)) then
    flags ||| SE_CORNER else flags
  let flags := if sw && !(ShadowFlags.intersects flags (S_EDGE ||| W_EDGE)) then
    flags ||| SW_CORNER else flags
  flags

/-- Rust `Drawer::get_rendering_size`: full pixel size needed to draw a level
(u32 arithmetic, wrapping in release mode). -/
def get_rendering_size (level : Level) : Nat × Nat :=
  let w := level.extents.1
  let h := level.extents.2
  let width := (i32ToU32 w * Tile.width) % U32M
  let height := if h > 0 then
    (Tile.height + (i32ToU32 (h - 1) * Tile.effective_height) % U32M) % U32M
  else
    0
  (width, height)

/-- Rust `Drawer::get_centered_image_rect`: the rectangle (x, y, w, h) placing an
image of the given size centered on a screen of the given size. The u32
subtraction wraps, the result is cast to i32 and divided by 2 with Rust's
truncating division. -/
def get_centered_image_rect (screen_size img_size : Nat × Nat) :
    Int × Int × Nat × Nat :=
  let x := Int.tdiv (u32ToI32 (u32sub screen_size.1 img_size.1)) 2
  let y := Int.tdiv (u32ToI32 (u32sub screen_size.2 img_size.2)) 2
  (x, y, img_size.1, img_size.2)

/-- A single texture-copy command issued by `Drawer::draw_tile`: source
rectangle in the tileset and destination rectangle on the target. -/
structure DrawCmd where
  src : Int × Int × Nat × Nat
  dst : Int × Int × Nat × Nat
deriving DecidableEq

/-- Rust `Drawer::get_tile_rect`: the rectangle of the tile at the given column
and row of the tileset texture. -/
def get_tile_rect (col row : Nat) : Int × Int × Nat × Nat :=
  let x := u32ToI32 ((col * Tile.width) % U32M)
  let y := u32ToI32 ((row * Tile.height) % U32M)
  (x, y, Tile.width, Tile.height)

/-- Rust `Drawer::draw_tile`: looks up the tile's atlas location and emits a copy
command; a tile with no location panics, modelled as `none`. -/
def draw_tile (tile : Tile) (x y : Int) : Option DrawCmd :=
  (tile.location).map (fun cr =>
    { src := get_tile_rect cr.1 cr.2, dst := (x, y, Tile.width, Tile.height) })

/-- The tiles drawn by one iteration of the cell loop of
`Drawer::draw_fullsize`, with their coordinates, in source order: floor or
square, then the shadow overlays in fixed flag order, then wall, box and
player at the elevated coordinate. -/
def cell_tiles (level : Level) (pos : Position) : List (Tile × Int × Int) :=
  let xy := Tile.get_coordinates pos
  let x := xy.1
  let y := xy.2
  let floor := if level.is_square pos then [(Tile.Square, x, y)]
    else [(Tile.Floor, x, y)]
  let flags := get_shadow_flags level pos
  let shadows :=
    [N_EDGE, S_EDGE, E_EDGE, W_EDGE, NE_CORNER, NW_CORNER, SE_CORNER,
      SW_CORNER].filterMap (fun f =>
        if ShadowFlags.contains flags f then some (Tile.Shadow f, x, y)
        else none)
  let z := wrap32 (y - Tile.offset)
  let items :=
    (if level.is_wall pos then [(Tile.Wall, x, z)] else []) ++
    (if level.is_box pos then [(Tile.Rock, x, z)] else []) ++
    (if level.is_player pos then [(Tile.Player, x, z)] else [])
  floor ++ shadows ++ items

/-- Rust `Drawer::draw_fullsize`: row-major iteration over the level's cells,
drawing each cell's tiles; the whole composition fails (`none`) exactly when
some `draw_tile` call panics. -/
def draw_fullsize (level : Level) : Option (List DrawCmd) :=
  let cols := level.extents.1
  let rows := level.extents.2
  (((List.range rows.toNat).flatMap (fun j =>
      (List.range cols.toNat).map (fun i =>
        Position.mk (j : Int) (i : Int)))).flatMap
    (cell_tiles level)).mapM (fun t => draw_tile t.1 t.2.1 t.2.2)

/-- A level on which every witness predicate is false; extents 3 by 3. -/
def emptyLevel : Level where
  extents := (3, 3)
  is_wall := fun _ => false
  is_box := fun _ => false
  is_player := fun _ => false
  is_square := fun _ => false

/-- The 3 by 3 scenario level of the spec: a wall only at row 1, column 1. -/
def centerWallLevel : Level where
  extents := (3, 3)
  is_wall := fun p => p.row == 1 && p.column == 1
  is_box := fun _ => false
  is_player := fun _ => false
  is_square := fun _ => false

/-- A level with extents (5, 4), the buffer-size scenario of the spec. -/
def level54 : Level where
  extents := (5, 4)
  is_wall := fun _ => false
  is_box := fun _ => false
  is_player := fun _ => false
  is_square := fun _ => false

/-- A level with zero columns and one row. -/
def level01 : Level where
  extents := (0, 1)
  is_wall := fun _ => false
  is_box := fun _ => false
  is_player := fun _ => false
  is_square := fun _ => false

/-- Rust `get_shadow_flags` only depends on the eight wall queries it makes, and
equals `shadow_core` applied to them. -/
theorem get_shadow_flags_eq_core (level : Level) (pos : Position) :
    get_shadow_flags level pos =
      shadow_core (level.is_wall (pos.neighboor Direction.Up))
        (level.is_wall (pos.neighboor Direction.Down))
        (level.is_wall (pos.neighboor Direction.Left))
        (level.is_wall (pos.neighboor Direction.Right))
        (level.is_wall ((pos.neighboor Direction.Up).neighboor Direction.Right))
        (level.is_wall ((pos.neighboor Direction.Up).neighboor Direction.Left))
        (level.is_wall ((pos.neighboor Direction.Down).neighboor Direction.Right))
        (level.is_wall ((pos.neighboor Direction.Down).neighboor Direction.Left)) :=
  rfl

/-- C1: a corner flag is set iff the corresponding diagonal neighbor is a
wall and neither of the two adjacent edge flags for that diagonal is set on
the same mask; consequently a set corner flag has both adjacent edge flags
false. -/
theorem shadow_corner_precedence (level : Level) (pos : Position) :
    (ShadowFlags.contains (get_shadow_flags level pos) NE_CORNER = true ↔
      (level.is_wall ((pos.neighboor Direction.Up).neighboor Direction.Right) = true ∧
       ShadowFlags.contains (get_shadow_flags level pos) N_EDGE = false ∧
       ShadowFlags.contains (get_shadow_flags level pos) E_EDGE = false)) ∧
    (ShadowFlags.contains (get_shadow_flags level pos) NW_CORNER = true ↔
      (level.is_wall ((pos.neighboor Direction.Up).neighboor Direction.Left) = true ∧
       ShadowFlags.contains (get_shadow_flags level pos) N_EDGE = false ∧
       ShadowFlags.contains (get_shadow_flags level pos) W_EDGE = false)) ∧
    (ShadowFlags.contains (get_shadow_flags level pos) SE_CORNER = true ↔
      (level.is_wall ((pos.neighboor Direction.Down).neighboor Direction.Right) = true ∧
       ShadowFlags.contains (get_shadow_flags level pos) S_EDGE = false ∧
       ShadowFlags.contains (get_shadow_flags level pos) E_EDGE = false)) ∧
    (ShadowFlags.contains (get_shadow_flags level pos) SW_CORNER = true ↔
      (level.is_wall ((pos.neighboor Direction.Down).neighboor Direction.Left) = true ∧
       ShadowFlags.contains (get_shadow_flags level pos) S_EDGE = false ∧
       ShadowFlags.contains (get_shadow_flags level pos) W_EDGE = false)) := by
  rw [get_shadow_flags_eq_core]
  generalize level.is_wall (pos.neighboor Direction.Up) = n
  generalize level.is_wall (pos.neighboor Direction.Down) = s
  generalize level.is_wall (pos.neighboor Direction.Left) = w
  generalize level.is_wall (pos.neighboor Direction.Right) = e
  generalize level.is_wall ((pos.neighboor Direction.Up).neighboor Direction.Right) = ne
  generalize level.is_wall ((pos.neighboor Direction.Up).neighboor Direction.Left) = nw
  generalize level.is_wall ((pos.neighboor Direction.Down).neighboor Direction.Right) = se
  generalize level.is_wall ((pos.neighboor Direction.Down).neighboor Direction.Left) = sw
  revert n s w e ne nw se sw
  decide

/-- C4: each cardinal edge flag is set iff the level reports a wall at the
corresponding cardinal neighbor (up, down, right, left respectively). -/
theorem shadow_edge_flags (level : Level) (pos : Position) :
    ShadowFlags.contains (get_shadow_flags level pos) N_EDGE =
      level.is_wall (pos.neighboor Direction.Up) ∧
    ShadowFlags.contains (get_shadow_flags level pos) S_EDGE =
      level.is_wall (pos.neighboor Direction.Down) ∧
    ShadowFlags.contains (get_shadow_flags level pos) E_EDGE =
      level.is_wall (pos.neighboor Direction.Right) ∧
    ShadowFlags.contains (get_shadow_flags level pos) W_EDGE =
      level.is_wall (pos.neighboor Direction.Left) := by
  rw [get_shadow_flags_eq_core]
  generalize level.is_wall (pos.neighboor Direction.Up) = n
  generalize level.is_wall (pos.neighboor Direction.Down) = s
  generalize level.is_wall (pos.neighboor Direction.Left) = w
  generalize level.is_wall (pos.neighboor Direction.Right) = e
  generalize level.is_wall ((pos.neighboor Direction.Up).neighboor Direction.Right) = ne
  generalize level.is_wall ((pos.neighboor Direction.Up).neighboor Direction.Left) = nw
  generalize level.is_wall ((pos.neighboor Direction.Down).neighboor Direction.Right) = se
  generalize level.is_wall ((pos.neighboor Direction.Down).neighboor Direction.Left) = sw
  revert n s w e ne nw se sw
  decide

/-- C5: with no wall at any of the four cardinal or four diagonal neighbors,
the computed mask is empty. -/
theorem shadow_flags_empty_of_no_walls (level : Level) (pos : Position)
    (hn : level.is_wall (pos.neighboor Direction.Up) = false)
    (hs : level.is_wall (pos.neighboor Direction.Down) = false)
    (hw : level.is_wall (pos.neighboor Direction.Left) = false)
    (he : level.is_wall (pos.neighboor Direction.Right) = false)
    (hne : level.is_wall ((pos.neighboor Direction.Up).neighboor Direction.Right) = false)
    (hnw : level.is_wall ((pos.neighboor Direction.Up).neighboor Direction.Left) = false)
    (hse : level.is_wall ((pos.neighboor Direction.Down).neighboor Direction.Right) = false)
    (hsw : level.is_wall ((pos.neighboor Direction.Down).neighboor Direction.Left) = false) :
    get_shadow_flags level pos = ShadowFlags.empty := by
  rw [get_shadow_flags_eq_core, hn, hs, hw, he, hne, hnw, hse, hsw]
  decide

/-- C5 witness: on the wall-free level, the mask at position (1, 1) is empty. -/
theorem shadow_flags_empty_of_no_walls_witness :
    get_shadow_flags emptyLevel (Position.mk 1 1) = ShadowFlags.empty :=
  shadow_flags_empty_of_no_walls emptyLevel (Position.mk 1 1)
    rfl rfl rfl rfl rfl rfl rfl rfl

/-- C2 counterexample: the Wall tile's atlas location is (0, 2), whose row is
not below 2, so not every defined location lies in a 6-column by 2-row grid. -/
theorem tile_location_wall_row_two :
    Tile.location Tile.Wall = some (0, 2) ∧ ¬((2 : Nat) < 2) :=
  ⟨rfl, by decide⟩

/-- C2 amended: every defined atlas location has column below 6 and row below
3; every variant except Wall has row below 2; Wall alone sits at row 2. -/
theorem tile_location_bounds (t : Tile) (c r : Nat)
    (h : Tile.location t = some (c, r)) :
    c < 6 ∧ r < 3 ∧ (t ≠ Tile.Wall → r < 2) := by
  cases t <;> simp only [Tile.location] at h <;>
    (try split_ifs at h) <;> simp_all [Prod.ext_iff] <;> omega

/-- C2 witness: the Floor tile's location (0, 0) satisfies the bounds. -/
theorem tile_location_bounds_witness :
    (0 : Nat) < 6 ∧ (0 : Nat) < 3 ∧ (Tile.Floor ≠ Tile.Wall → (0 : Nat) < 2) :=
  tile_location_bounds Tile.Floor 0 0 rfl

/-- C3 counterexample: a level with zero columns and one row has rendering
height 171, not 0, so cols = 0 does not force height 0. -/
theorem rendering_size_zero_cols :
    level01.extents.1 = 0 ∧ (get_rendering_size level01).2 ≠ 0 := by
  constructor
  · rfl
  · decide

/-- C3 amended: width = cols * 101 always; height = 171 + (rows - 1) * 83
when rows >= 1 (also when cols = 0), and height = 0 exactly when rows = 0. -/
theorem rendering_size_formula (level : Level) (w h : Int)
    (he : level.extents = (w, h))
    (hw0 : 0 ≤ w) (hwb : w * 101 < 4294967296)
    (hh0 : 0 ≤ h) (hhb : 171 + (h - 1) * 83 < 4294967296) :
    (get_rendering_size level).1 = (w * 101).toNat ∧
    (get_rendering_size level).2 =
      (if h = 0 then 0 else (171 + (h - 1) * 83).toNat) ∧
    ((get_rendering_size level).2 = 0 ↔ h = 0) := by
  simp only [get_rendering_size, he, i32ToU32, U32M, Tile.width, Tile.height,
    Tile.effective_height]
  split_ifs <;> simp_all <;> omega

/-- C3 witness: the 5-column, 4-row level of the spec's scenario measures
505 by 420 pixels. -/
theorem rendering_size_formula_witness :
    (get_rendering_size level54).1 = ((5 : Int) * 101).toNat ∧
    (get_rendering_size level54).2 =
      (if (4 : Int) = 0 then 0 else ((171 : Int) + (4 - 1) * 83).toNat) ∧
    ((get_rendering_size level54).2 = 0 ↔ (4 : Int) = 0) :=
  rendering_size_formula level54 5 4 rfl (by decide) (by decide) (by decide)
    (by decide)

/-- C6: the top-left pixel coordinates of a position are x = column * 101 and
y = row * 83, and every elevated tile (wall, box, player) the cell loop draws
for that position sits at the same x with vertical coordinate z = y - 40. -/
theorem coordinates_formula (pos : Position)
    (h1 : 0 ≤ pos.column) (h2 : 101 * pos.column < 2147483648)
    (h3 : 0 ≤ pos.row) (h4 : 83 * pos.row < 2147483648) :
    (Tile.get_coordinates pos).1 = 101 * pos.column ∧
    (Tile.get_coordinates pos).2 = 83 * pos.row ∧
    ∀ (level : Level) (t : Tile) (x z : Int),
      (t, x, z) ∈ cell_tiles level pos →
      (t = Tile.Wall ∨ t = Tile.Rock ∨ t = Tile.Player) →
      x = 101 * pos.column ∧ z = 83 * pos.row - 40 := by
  have hx : (Tile.get_coordinates pos).1 = 101 * pos.column := by
    simp only [Tile.get_coordinates, wrap32, U32M, Tile.width,
      Tile.effective_height]
    omega
  have hy : (Tile.get_coordinates pos).2 = 83 * pos.row := by
    simp only [Tile.get_coordinates, wrap32, U32M, Tile.width,
      Tile.effective_height]
    omega
  have hz : wrap32 ((Tile.get_coordinates pos).2 - Tile.offset) =
      83 * pos.row - 40 := by
    rw [hy]
    simp only [wrap32, U32M, Tile.offset]
    omega
  refine ⟨hx, hy, ?_⟩
  intro level t x z hm ht
  rcases ht with ht | ht | ht <;> subst ht <;>
    by_cases hsq : level.is_square pos <;>
    by_cases hwall : level.is_wall pos <;>
    by_cases hbox : level.is_box pos <;>
    by_cases hpl : level.is_player pos <;>
    simp_all [cell_tiles, List.mem_append, List.mem_filterMap]

/-- C6 witness: the coordinate formulas evaluated at row 2, column 3. -/
theorem coordinates_formula_witness :
    (Tile.get_coordinates (Position.mk 2 3)).1 =
      101 * (Position.mk 2 3).column ∧
    (Tile.get_coordinates (Position.mk 2 3)).2 =
      83 * (Position.mk 2 3).row ∧
    ∀ (level : Level) (t : Tile) (x z : Int),
      (t, x, z) ∈ cell_tiles level (Position.mk 2 3) →
      (t = Tile.Wall ∨ t = Tile.Rock ∨ t = Tile.Player) →
      x = 101 * (Position.mk 2 3).column ∧
      z = 83 * (Position.mk 2 3).row - 40 :=
  coordinates_formula (Position.mk 2 3) (by decide) (by decide) (by decide)
    (by decide)

/-- C8: when the image fits on the screen, the centered rectangle's opposing
margins differ by at most one pixel in each dimension. -/
theorem centered_rect_margins (sw sh w h : Nat)
    (hw : w ≤ sw) (hh : h ≤ sh)
    (hsw : sw < 2147483648) (hsh : sh < 2147483648) :
    |(get_centered_image_rect (sw, sh) (w, h)).1 -
      ((sw : Int) - (w : Int) -
        (get_centered_image_rect (sw, sh) (w, h)).1)| ≤ 1 ∧
    |(get_centered_image_rect (sw, sh) (w, h)).2.1 -
      ((sh : Int) - (h : Int) -
        (get_centered_image_rect (sw, sh) (w, h)).2.1)| ≤ 1 := by
  have e1 : u32sub sw w = sw - w := by
    simp only [u32sub, U32M]
    omega
  have e2 : u32sub sh h = sh - h := by
    simp only [u32sub, U32M]
    omega
  have f1 : u32ToI32 (sw - w) = ((sw - w : Nat) : Int) := by
    rw [u32ToI32, if_pos]
    omega
  have f2 : u32ToI32 (sh - h) = ((sh - h : Nat) : Int) := by
    rw [u32ToI32, if_pos]
    omega
  have g1 : Int.tdiv ((sw - w : Nat) : Int) 2 =
      (((sw - w) / 2 : Nat) : Int) := rfl
  have g2 : Int.tdiv ((sh - h : Nat) : Int) 2 =
      (((sh - h) / 2 : Nat) : Int) := rfl
  simp only [get_centered_image_rect, e1, e2, f1, f2, g1, g2]
  rw [abs_le, abs_le]
  refine ⟨⟨?_, ?_⟩, ⟨?_, ?_⟩⟩ <;> omega

/-- C8 witness: margins of the 505 by 420 buffer centered on an 800 by 600
screen. -/
theorem centered_rect_margins_witness :
    |(get_centered_image_rect (800, 600) (505, 420)).1 -
      ((800 : Int) - (505 : Int) -
        (get_centered_image_rect (800, 600) (505, 420)).1)| ≤ 1 ∧
    |(get_centered_image_rect (800, 600) (505, 420)).2.1 -
      ((600 : Int) - (420 : Int) -
        (get_centered_image_rect (800, 600) (505, 420)).2.1)| ≤ 1 :=
  centered_rect_margins 800 600 505 420 (by decide) (by decide) (by decide)
    (by decide)

/-- C9: the atlas lookup is defined exactly for the 13 supported tile
identities (Floor, Wall, Rock, Square, Player and the 8 single shadow
flags), and `draw_tile` fails (panics) exactly when the lookup is
undefined. -/
theorem location_defined_iff :
    (∀ t : Tile, (Tile.location t).isSome = true ↔
      (t = Tile.Floor ∨ t = Tile.Wall ∨ t = Tile.Rock ∨ t = Tile.Square ∨
       t = Tile.Player ∨
       t = Tile.Shadow N_EDGE ∨ t = Tile.Shadow S_EDGE ∨
       t = Tile.Shadow E_EDGE ∨ t = Tile.Shadow W_EDGE ∨
       t = Tile.Shadow NE_CORNER ∨ t = Tile.Shadow NW_CORNER ∨
       t = Tile.Shadow SE_CORNER ∨ t = Tile.Shadow SW_CORNER)) ∧
    (∀ (t : Tile) (x y : Int),
      (draw_tile t x y).isSome = true ↔ (Tile.location t).isSome = true) := by
  constructor
  · intro t
    cases t <;> simp only [Tile.location] <;>
      (try split_ifs) <;> simp_all [N_EDGE, S_EDGE, E_EDGE, W_EDGE,
        NE_CORNER, NW_CORNER, SE_CORNER, SW_CORNER]
  · intro t x y
    simp [draw_tile]

/-- Sequencing a list of fallible draws succeeds when every single one
does (proof helper for draw_fullsize). -/
theorem mapM_option_isSome {α β : Type} (f : α → Option β) :
    ∀ l : List α, (∀ a, a ∈ l → (f a).isSome = true) →
      (l.mapM f).isSome = true := by
  intro l
  induction l with
  | nil => intro _; rfl
  | cons a l ih =>
    intro hall
    have ha := hall a (List.mem_cons_self a l)
    rcases Option.isSome_iff_exists.mp ha with ⟨b, hb⟩
    have hl := ih (fun x hx => hall x (List.mem_cons_of_mem a hx))
    rcases Option.isSome_iff_exists.mp hl with ⟨bs, hbs⟩
    rw [← List.mapM'_eq_mapM] at hbs ⊢
    simp [List.mapM', hb, hbs]

/-- Every tile the cell loop draws has a defined atlas location (proof
helper for draw_fullsize). -/
theorem cell_tiles_location_isSome (level : Level) (pos : Position) :
    ∀ u ∈ cell_tiles level pos, (Tile.location u.1).isSome = true := by
  intro u hu
  by_cases hsq : level.is_square pos <;>
  by_cases hwall : level.is_wall pos <;>
  by_cases hbox : level.is_box pos <;>
  by_cases hpl : level.is_player pos <;>
  simp_all [cell_tiles, List.mem_append, List.mem_filterMap] <;>
  aesop

/-- C10: full-size composition never reaches the fatal no-location branch of
`draw_tile`: on every level, `draw_fullsize` succeeds. -/
theorem draw_fullsize_total (level : Level) :
    (draw_fullsize level).isSome = true := by
  unfold draw_fullsize
  apply mapM_option_isSome
  intro u hu
  rcases List.mem_flatMap.mp hu with ⟨pos, _, hmem⟩
  have hl := cell_tiles_location_isSome level pos u hmem
  simp [draw_tile, hl]
